import Mathlib

/- Verification of sl-hello-goodbye (src/src/bin/sl_hello_goodbye.rs).

   The source parses a Second Life chat log with chumsky parser combinators
   and drives a presence state machine.  We shallowly embed the chumsky
   combinators as PEG-style functions on character lists: a parser takes the
   remaining input and returns the parsed value together with the rest of the
   input, or fails.  Chumsky's or-alternation is committed choice (the first
   succeeding alternative is kept; no backtracking once an alternative
   succeeds), repetition is greedy, and Parser::parse requires the whole
   input to be consumed, which runParse below models. -/

/-- A parser over characters: input to optional (value, remaining input). -/
def Prs (α : Type) : Type := List Char → Option (α × List Char)

/-- Parser that consumes nothing and returns a fixed value. -/
def pureP {α : Type} (a : α) : Prs α := fun s => some (a, s)

/-- Parser that always fails. -/
def failP {α : Type} : Prs α := fun _ => none

/-- Sequencing: run p, then run the parser produced from its result. -/
def bindP {α β : Type} (p : Prs α) (f : α → Prs β) : Prs β := fun s =>
  match p s with
  | some (a, rest) => f a rest
  | none => none

/-- Map over a parser's result (chumsky map). -/
def mapP {α β : Type} (p : Prs α) (f : α → β) : Prs β :=
  bindP p (fun a => pureP (f a))

/-- Fallible map (chumsky try_map): the function may reject the value. -/
def tryMapP {α β : Type} (p : Prs α) (f : α → Option β) : Prs β :=
  bindP p (fun a => fun s =>
    match f a with
    | some b => some (b, s)
    | none => none)

/-- Committed ordered choice (chumsky or): q runs only if p fails. -/
def orP {α : Type} (p q : Prs α) : Prs α := fun s =>
  match p s with
  | some r => some r
  | none => q s

/-- Optional parser (chumsky or_not): never fails. -/
def optP {α : Type} (p : Prs α) : Prs (Option α) := fun s =>
  match p s with
  | some (a, r) => some (some a, r)
  | none => some (none, s)

/-- Run p for effect only, keep q's result (chumsky ignore_then). -/
def ignoreThenP {α β : Type} (p : Prs α) (q : Prs β) : Prs β :=
  bindP p (fun _ => q)

/-- Keep p's result, run q for effect only (chumsky then_ignore). -/
def thenIgnoreP {α β : Type} (p : Prs α) (q : Prs β) : Prs α :=
  bindP p (fun a => mapP q (fun _ => a))

/-- Pair sequencing (chumsky then). -/
def andThenP {α β : Type} (p : Prs α) (q : Prs β) : Prs (α × β) :=
  bindP p (fun a => mapP q (fun b => (a, b)))

/-- Boolean test that lit occurs at the start of s. -/
def litPre : List Char → List Char → Bool
  | [], _ => true
  | _ :: _, [] => false
  | a :: as, b :: bs => a = b && litPre as bs

/-- Literal parser (chumsky just): consumes exactly the literal. -/
def justP (lit : List Char) : Prs (List Char) := fun s =>
  if litPre lit s then some (lit, s.drop lit.length) else none

/-- Greedy any().repeated().collect(): consumes the whole remaining input. -/
def anyAllP : Prs (List Char) := fun s => some (s, [])

/-- End of input (chumsky end). -/
def endP : Prs Unit := fun s =>
  match s with
  | [] => some ((), [])
  | _ => none

/-- Exactly n characters, each satisfying pred (one_of(..).repeated().exactly(n)). -/
def exactlyP (pred : Char → Bool) : Nat → Prs (List Char)
  | 0 => pureP []
  | n + 1 => fun s =>
    match s with
    | [] => none
    | c :: rest =>
      if pred c then
        match exactlyP pred n rest with
        | some (cs, r) => some (c :: cs, r)
        | none => none
      else none

/-- Greedy zero-or-more characters satisfying pred. -/
def manyPredP (pred : Char → Bool) : Prs (List Char) := fun s =>
  some (s.takeWhile pred, s.dropWhile pred)

/-- Greedy one-or-more characters satisfying pred. -/
def many1PredP (pred : Char → Bool) : Prs (List Char) := fun s =>
  match s with
  | [] => none
  | c :: rest =>
    if pred c then some (c :: rest.takeWhile pred, rest.dropWhile pred)
    else none

/-- chumsky text::whitespace(): zero or more whitespace characters.
    Rust uses char::is_whitespace; Char.isWhitespace agrees on ASCII. -/
def whitespaceP : Prs Unit := mapP (manyPredP Char.isWhitespace) (fun _ => ())

/-- chumsky text::digits(10): one or more ASCII decimal digits. -/
def digitsP : Prs (List Char) := many1PredP Char.isDigit

/-- Worker for takeUntilP: consume characters one at a time until q matches;
    when q matches, q's match is consumed (chumsky take_until semantics). -/
def takeUntilGo {α : Type} (q : Prs α) : List Char → Option ((List Char × α) × List Char)
  | [] =>
    match q [] with
    | some (a, r) => some (([], a), r)
    | none => none
  | c :: rest =>
    match q (c :: rest) with
    | some (a, r) => some (([], a), r)
    | none =>
      match takeUntilGo q rest with
      | some ((cs, a), r) => some ((c :: cs, a), r)
      | none => none

/-- chumsky take_until(q): the characters before q's match, and q's result. -/
def takeUntilP {α : Type} (q : Prs α) : Prs (List Char × α) := fun s => takeUntilGo q s

/-- First character of a chumsky text::ident() (ASCII letter or underscore). -/
def isIdentStart (c : Char) : Bool := c.isAlpha || c = '_'

/-- Continuation character of a chumsky text::ident(). -/
def isIdentCont (c : Char) : Bool := c.isAlphanum || c = '_'

/-- chumsky text::ident(): an identifier token. -/
def identP : Prs (List Char) := fun s =>
  match s with
  | [] => none
  | c :: rest =>
    if isIdentStart c then some (c :: rest.takeWhile isIdentCont, rest.dropWhile isIdentCont)
    else none

/-- Numeric value of a decimal digit run. -/
def natOfDigits (ds : List Char) : Nat :=
  ds.foldl (fun acc c => acc * 10 + (c.toNat - 48)) 0

/-- Parser::parse of chumsky: run the parser and require that the whole
    input was consumed; anything else is a hard parse failure (modelled
    as none, the source reports a ChumskyError). -/
def runParse {α : Type} (p : Prs α) (s : List Char) : Option α :=
  match p s with
  | some (a, []) => some a
  | _ => none

/- ===================== Data model (from the source types) ===================== -/

/-- Second Life region coordinates; the source stores i16 parsed from an
    unsigned digit run, so only 0..=32767 can result (checked at parse time). -/
structure SecondLifeRegionCoordinates where
  x : Nat
  y : Nat
  z : Nat
  deriving DecidableEq

/-- A Second Life location: region name plus coordinates. -/
structure SecondLifeLocation where
  region_name : String
  coordinates : SecondLifeRegionCoordinates
  deriving DecidableEq

/-- A distance such as 235.23 m; the source stores an f64 parsed from
    digits.digits, which we keep as the two digit runs (the parse of such
    a string into f64 never fails, and the value is never computed with). -/
structure SecondLifeDistance where
  whole : String
  frac : String
  deriving DecidableEq

/-- Chat volume; the derived Rust ordering follows declaration order:
    Whisper < Say < Shout < RegionSay. -/
inductive SecondLifeChatVolume
  | Whisper
  | Say
  | Shout
  | RegionSay
  deriving DecidableEq

/-- Rank realising the derived ordering of SecondLifeChatVolume. -/
def volRank : SecondLifeChatVolume → Nat
  | .Whisper => 0
  | .Say => 1
  | .Shout => 2
  | .RegionSay => 3

/-- The derived ordering of SecondLifeChatVolume as a Boolean. -/
def volLe (a b : SecondLifeChatVolume) : Bool := volRank a ≤ volRank b

/-- Area of significance; ChatRange < DrawDistance < Region by declaration. -/
inductive SecondLifeArea
  | ChatRange
  | DrawDistance
  | Region
  deriving DecidableEq

/-- A Second Life system message (tagged union from the source). -/
inductive SecondLifeSystemMessage
  | SavedSnapshotMessage (filename : String)
  | AttachmentSavedMessage
  | SentPaymentMessage (recipient_avatar_key : String) (amount : Nat) (object_name : Option String)
  | ReceivedPaymentMessage (sender_avatar_key : String) (amount : Nat) (message : Option String)
  | NowPlayingMessage (song_name : String)
  | TeleportCompletedMessage (origin : SecondLifeLocation)
  | RegionRestartMessage
  | ObjectGaveObjectMessage (giving_object_name : String)
      (giving_object_location : SecondLifeLocation)
      (giving_object_owner : String) (given_object_name : String)
  | AvatarGaveObjectMessage (giving_avatar_name : String) (given_object_name : String)
  | ItemsSuccessfullyShared
  | ModifiedSearchQuery (query : String)
  | SimulatorVersion (previous_region_simulator_version : String)
      (current_region_simulator_version : String)
  | RenamedAvatar (old_name : String) (new_name : String)
  | OtherSystemMessage (message : String)
  deriving DecidableEq

/-- A Second Life avatar-related message (tagged union from the source). -/
inductive SecondLifeAvatarMessage
  | Chat (volume : SecondLifeChatVolume) (message : String)
  | Emote (volume : SecondLifeChatVolume) (message : String)
  | CameOnline
  | WentOffline
  | EnteredArea (area : SecondLifeArea) (distance : Option SecondLifeDistance)
  | LeftArea (area : SecondLifeArea)
  deriving DecidableEq

/-- An event commemorated in the chat log (tagged union from the source). -/
inductive SecondLifeChatLogEvent
  | AvatarLine (name : String) (message : SecondLifeAvatarMessage)
  | SystemMessage (message : SecondLifeSystemMessage)
  | OtherMessage (message : String)
  deriving DecidableEq

/-- A validated timestamp as produced by time::PrimitiveDateTime::parse from
    the Y/M/D H:M:S string the source assembles (field ranges checked). -/
structure ChatTimestamp where
  year : Nat
  month : Nat
  day : Nat
  hour : Nat
  minute : Nat
  second : Nat
  deriving DecidableEq

/-- Gregorian leap year test (as used by the time crate's calendar dates). -/
def isLeapYear (y : Nat) : Bool := (y % 4 = 0 && !(y % 100 = 0)) || y % 400 = 0

/-- Days in a month of a given year; 0 for an invalid month number. -/
def daysInMonth (y m : Nat) : Nat :=
  match m with
  | 1 => 31
  | 2 => if isLeapYear y then 29 else 28
  | 3 => 31
  | 4 => 30
  | 5 => 31
  | 6 => 30
  | 7 => 31
  | 8 => 31
  | 9 => 30
  | 10 => 31
  | 11 => 30
  | 12 => 31
  | _ => 0

/-- The validation performed by time::PrimitiveDateTime::parse on the
    components (month 1..=12, day in range for the month, hour 0..=23,
    minute 0..=59, second 0..=59); none models the ComponentRange error
    turned into a Simple::custom parse failure by the source's try_map. -/
def mkChatTimestamp (y m d h mi s : Nat) : Option ChatTimestamp :=
  if 1 ≤ m && m ≤ 12 && 1 ≤ d && d ≤ daysInMonth y m && h ≤ 23 && mi ≤ 59 && s ≤ 59
  then some { year := y, month := m, day := d, hour := h, minute := mi, second := s }
  else none

/-- A parsed chat log line: optional timestamp (absent for the known broken
    template-literal lines) and the event. -/
structure SecondLifeChatLogLine where
  timestamp : Option ChatTimestamp
  event : SecondLifeChatLogEvent
  deriving DecidableEq

/- ===================== Fragment parsers (from the source) ===================== -/

/-- Lowercase hex digit as accepted by one_of("0123456789abcdef"). -/
def isHexLower (c : Char) : Bool := "0123456789abcdef".data.contains c

/-- uuid_parser: 8-4-4-4-12 lowercase hex groups joined by '-'.  The
    source's Uuid::parse_str on such a string always succeeds, so the
    try_map cannot fail and we keep the canonical string form. -/
def uuid_p : Prs String :=
  bindP (exactlyP isHexLower 8) (fun a =>
  ignoreThenP (justP "-".data)
  (bindP (exactlyP isHexLower 4) (fun b =>
  ignoreThenP (justP "-".data)
  (bindP (exactlyP isHexLower 4) (fun c =>
  ignoreThenP (justP "-".data)
  (bindP (exactlyP isHexLower 4) (fun d =>
  ignoreThenP (justP "-".data)
  (bindP (exactlyP isHexLower 12) (fun e =>
  pureP (String.mk (a ++ '-' :: b ++ '-' :: c ++ '-' :: d ++ '-' :: e)))))))))))

/-- agent_url_as_avatar_key_parser: an agent URL wrapping a UUID. -/
def agent_url_as_avatar_key_p : Prs String :=
  thenIgnoreP (ignoreThenP (justP "secondlife:///app/agent/".data) uuid_p)
    (orP (justP "/about".data) (justP "/inspect".data))

/-- linden_amount_parser: "L$" then digits parsed as u64; a run whose value
    exceeds u64::MAX makes the parse::<u64> fail, which the source turns
    into a Simple::custom parse failure. -/
def linden_amount_p : Prs Nat :=
  tryMapP (ignoreThenP (justP "L$".data) digitsP)
    (fun ds =>
      let n := natOfDigits ds
      if n < 18446744073709551616 then some n else none)

/-- The i16 parse of an unsigned digit run in the coordinate parser:
    succeeds exactly for values 0..=32767. -/
def i16OfDigits (ds : List Char) : Option Nat :=
  let n := natOfDigits ds
  if n ≤ 32767 then some n else none

/-- slash_separated_coordinate_parser: digits separated_by '/' exactly 3,
    each component parsed as i16 via try_map. -/
def slash_separated_coordinate_p : Prs SecondLifeRegionCoordinates :=
  bindP digitsP (fun xs =>
  ignoreThenP (justP "/".data)
  (bindP digitsP (fun ys =>
  ignoreThenP (justP "/".data)
  (bindP digitsP (fun zs => fun s =>
    match i16OfDigits xs, i16OfDigits ys, i16OfDigits zs with
    | some x, some y, some z => some ({ x := x, y := y, z := z }, s)
    | _, _, _ => none)))))

/-- Join identifier components with single spaces (components.join(" ")). -/
def joinSpace : List (List Char) → List Char
  | [] => []
  | [x] => x
  | x :: xs => x ++ ' ' :: joinSpace xs

/-- Loop of region_name_parser's separated_by(just("%20")): repeatedly take
    a "%20" separator followed by another identifier, backtracking a
    separator that is not followed by one.  Fuel bounds the iteration count;
    every iteration consumes at least four characters, so an initial fuel of
    the input length is always sufficient. -/
def regionSepGo : Nat → List Char → List (List Char) × List Char
  | 0, s => ([], s)
  | fuel + 1, s =>
    match justP "%20".data s with
    | none => ([], s)
    | some (_, s1) =>
      match identP s1 with
      | none => ([], s)
      | some (idt, s2) =>
        let pr := regionSepGo fuel s2
        (idt :: pr.fst, pr.snd)

/-- region_name_parser: identifiers separated by "%20", joined by spaces.
    separated_by admits zero items, so this parser never fails. -/
def region_name_p : Prs String := fun s =>
  match identP s with
  | none => some ("", s)
  | some (i0, s1) =>
    let pr := regionSepGo s1.length s1
    some (String.mk (joinSpace (i0 :: pr.fst)), pr.snd)

/-- location_parser: region name, '/', coordinates. -/
def location_p : Prs SecondLifeLocation :=
  bindP (thenIgnoreP region_name_p (justP "/".data)) (fun rn =>
  mapP slash_separated_coordinate_p (fun c => { region_name := rn, coordinates := c }))

/-- distance_parser: digits '.' digits " m". -/
def distance_p : Prs SecondLifeDistance :=
  bindP digitsP (fun whole =>
  ignoreThenP (justP ".".data)
  (bindP digitsP (fun frac =>
  ignoreThenP (justP " m".data)
  (pureP { whole := String.mk whole, frac := String.mk frac }))))

/- ===================== System message parsers (from the source) ===================== -/

/-- The apostrophe character appearing in the nolink literals. -/
def apos : Char := Char.ofNat 39

/-- snapshot_saved_message_parser. -/
def snapshot_saved_message_p : Prs SecondLifeSystemMessage :=
  mapP (ignoreThenP (justP "Snapshot saved: ".data) anyAllP)
    (fun f => SecondLifeSystemMessage.SavedSnapshotMessage (String.mk f))

/-- attachment_saved_message_parser. -/
def attachment_saved_message_p : Prs SecondLifeSystemMessage :=
  mapP (justP "Attachment has been saved".data)
    (fun _ => SecondLifeSystemMessage.AttachmentSavedMessage)

/-- sent_payment_message_parser. -/
def sent_payment_message_p : Prs SecondLifeSystemMessage :=
  bindP (ignoreThenP (justP "You paid ".data) agent_url_as_avatar_key_p) (fun k =>
  bindP (ignoreThenP (justP " ".data) linden_amount_p) (fun amt =>
  bindP (orP (mapP (ignoreThenP (justP " for ".data) (takeUntilP (justP ".".data)))
               (fun pr => some pr.fst))
             (mapP (justP ".".data) (fun _ => (none : Option (List Char)))))
    (fun objName =>
  pureP (SecondLifeSystemMessage.SentPaymentMessage k amt (objName.map String.mk)))))

/-- received_payment_message_parser.  Note that in the first alternative of
    the message part the source chains any().repeated() (which consumes the
    whole remaining input) before take_until(just(".")), so that alternative
    can never succeed; we translate it verbatim. -/
def received_payment_message_p : Prs SecondLifeSystemMessage :=
  bindP (thenIgnoreP agent_url_as_avatar_key_p (justP " paid you ".data)) (fun k =>
  bindP linden_amount_p (fun amt =>
  bindP (orP (mapP (ignoreThenP (justP ": ".data)
                     (ignoreThenP anyAllP (takeUntilP (justP ".".data))))
               (fun pr => some pr.fst))
             (mapP (justP ".".data) (fun _ => (none : Option (List Char)))))
    (fun msg =>
  pureP (SecondLifeSystemMessage.ReceivedPaymentMessage k amt (msg.map String.mk)))))

/-- teleport_completed_message_parser. -/
def teleport_completed_message_p : Prs SecondLifeSystemMessage :=
  mapP (ignoreThenP (justP "Teleport completed from http://maps.secondlife.com/secondlife/".data)
         location_p)
    (fun origin => SecondLifeSystemMessage.TeleportCompletedMessage origin)

/-- now_playing_message_parser. -/
def now_playing_message_p : Prs SecondLifeSystemMessage :=
  mapP (ignoreThenP (justP "Now playing: ".data) anyAllP)
    (fun song => SecondLifeSystemMessage.NowPlayingMessage (String.mk song))

/-- region_restart_message_parser. -/
def region_restart_message_p : Prs SecondLifeSystemMessage :=
  mapP (justP "The region you are in now is about to restart. If you stay in this region you will be logged out.".data)
    (fun _ => SecondLifeSystemMessage.RegionRestartMessage)

/-- object_gave_object_message_parser. -/
def object_gave_object_message_p : Prs SecondLifeSystemMessage :=
  bindP (takeUntilP (justP " owned by ".data)) (fun g1 =>
  bindP agent_url_as_avatar_key_p (fun owner =>
  bindP (ignoreThenP (optP whitespaceP)
          (andThenP (justP "gave you ".data)
            (optP (justP ("<nolink>".data ++ [apos]))))) (fun _ =>
  bindP (takeUntilP (andThenP (optP (justP ("</nolink>".data ++ [apos])))
           (andThenP whitespaceP (justP "( http://slurl.com/secondlife/".data)))) (fun g2 =>
  bindP location_p (fun loc =>
  ignoreThenP (justP " ).".data)
    (pureP (SecondLifeSystemMessage.ObjectGaveObjectMessage
      (String.mk g1.fst) loc owner (String.mk g2.fst))))))))

/-- avatar_gave_object_message_parser. -/
def avatar_gave_object_message_p : Prs SecondLifeSystemMessage :=
  bindP (ignoreThenP (justP "A group member named ".data)
          (takeUntilP (justP " gave you ".data))) (fun giver =>
  mapP (takeUntilP (justP ".".data))
    (fun obj => SecondLifeSystemMessage.AvatarGaveObjectMessage
      (String.mk giver.fst) (String.mk obj.fst)))

/-- items_successfully_shared_message_parser. -/
def items_successfully_shared_message_p : Prs SecondLifeSystemMessage :=
  mapP (justP "Items successfully shared.".data)
    (fun _ => SecondLifeSystemMessage.ItemsSuccessfullyShared)

/-- modified_search_query_message_parser. -/
def modified_search_query_message_p : Prs SecondLifeSystemMessage :=
  mapP (ignoreThenP (justP "Your search query was modified and the words that were too short were removed.".data)
         (ignoreThenP whitespaceP
           (ignoreThenP (justP "Searched for:".data)
             (ignoreThenP whitespaceP anyAllP))))
    (fun q => SecondLifeSystemMessage.ModifiedSearchQuery (String.mk q))

/-- simulator_version_message_parser. -/
def simulator_version_message_p : Prs SecondLifeSystemMessage :=
  bindP (ignoreThenP (justP "The region you have entered is running a different simulator version.".data)
          (ignoreThenP whitespaceP
            (ignoreThenP (justP "Current simulator:".data)
              (ignoreThenP whitespaceP (takeUntilP (justP "\n".data)))))) (fun cur =>
  bindP (ignoreThenP whitespaceP
          (ignoreThenP (justP "Previous simulator:".data)
            (ignoreThenP whitespaceP anyAllP))) (fun prev =>
  pureP (SecondLifeSystemMessage.SimulatorVersion (String.mk prev) (String.mk cur.fst))))

/-- renamed_avatar_message_parser. -/
def renamed_avatar_message_p : Prs SecondLifeSystemMessage :=
  bindP (takeUntilP (justP " is now known as".data)) (fun old =>
  bindP (ignoreThenP whitespaceP (takeUntilP (justP ".".data))) (fun nw =>
  pureP (SecondLifeSystemMessage.RenamedAvatar (String.mk old.fst) (String.mk nw.fst))))

/-- The terminal catch-all of system_message_parser: the raw text verbatim. -/
def other_system_message_p : Prs SecondLifeSystemMessage :=
  mapP anyAllP (fun s => SecondLifeSystemMessage.OtherSystemMessage (String.mk s))

/-- system_message_parser: the source's or-chain, in the source's nesting
    order (snapshot, attachment, sent, received, teleport, now-playing,
    region-restart, object-gave, items-shared, modified-search, avatar-gave,
    simulator-version, renamed, catch-all). -/
def system_message_p : Prs SecondLifeSystemMessage :=
  orP snapshot_saved_message_p
  (orP attachment_saved_message_p
  (orP sent_payment_message_p
  (orP received_payment_message_p
  (orP teleport_completed_message_p
  (orP now_playing_message_p
  (orP region_restart_message_p
  (orP object_gave_object_message_p
  (orP items_successfully_shared_message_p
  (orP modified_search_query_message_p
  (orP avatar_gave_object_message_p
  (orP simulator_version_message_p
  (orP renamed_avatar_message_p other_system_message_p))))))))))))

/-- Modelled from the spec: the same alternatives chained in the priority
    order the specification lists them in (snapshot, attachment, sent,
    received, now-playing, teleport, region-restart, object-gave,
    avatar-gave, items-shared, modified-search, simulator-version, renamed,
    catch-all).  Used to compare the source's rule order with the spec's. -/
def system_message_spec_order_p : Prs SecondLifeSystemMessage :=
  orP snapshot_saved_message_p
  (orP attachment_saved_message_p
  (orP sent_payment_message_p
  (orP received_payment_message_p
  (orP now_playing_message_p
  (orP teleport_completed_message_p
  (orP region_restart_message_p
  (orP object_gave_object_message_p
  (orP avatar_gave_object_message_p
  (orP items_successfully_shared_message_p
  (orP modified_search_query_message_p
  (orP simulator_version_message_p
  (orP renamed_avatar_message_p other_system_message_p))))))))))))

/- ===================== Avatar message and line parsers ===================== -/

/-- Strip lit from the front of s if it is there (str::strip_prefix). -/
def stripPre : List Char → List Char → Option (List Char)
  | [], s => some s
  | _ :: _, [] => none
  | a :: as, b :: bs => if a = b then stripPre as bs else none

/-- SecondLifeChatVolume::volume_and_message: identify the volume of a chat
    body by its literal marker and strip the marker off. -/
def volume_and_message (s : List Char) : SecondLifeChatVolume × List Char :=
  match stripPre "whispers: ".data s with
  | some whisper_message => (SecondLifeChatVolume.Whisper, whisper_message)
  | none =>
    match stripPre "shouts: ".data s with
    | some shout_message => (SecondLifeChatVolume.Shout, shout_message)
    | none => (SecondLifeChatVolume.Say, s)

/-- avatar_chat_message_parser: the whole remaining input as a chat message,
    split into volume and body. -/
def avatar_chat_message_p : Prs SecondLifeAvatarMessage :=
  mapP anyAllP (fun s =>
    let vm := volume_and_message s
    SecondLifeAvatarMessage.Chat vm.fst (String.mk vm.snd))

/-- avatar_emote_message_parser: "/me " then the rest as an emote. -/
def avatar_emote_message_p : Prs SecondLifeAvatarMessage :=
  mapP (ignoreThenP (justP "/me ".data) anyAllP) (fun s =>
    let vm := volume_and_message s
    SecondLifeAvatarMessage.Emote vm.fst (String.mk vm.snd))

/-- avatar_came_online_message_parser. -/
def avatar_came_online_message_p : Prs SecondLifeAvatarMessage :=
  mapP (justP "is online.".data) (fun _ => SecondLifeAvatarMessage.CameOnline)

/-- avatar_went_offline_message_parser. -/
def avatar_went_offline_message_p : Prs SecondLifeAvatarMessage :=
  mapP (justP "is offline.".data) (fun _ => SecondLifeAvatarMessage.WentOffline)

/-- area_of_significance_parser. -/
def area_of_significance_p : Prs SecondLifeArea :=
  orP (mapP (justP "chat range".data) (fun _ => SecondLifeArea.ChatRange))
  (orP (mapP (justP "draw distance".data) (fun _ => SecondLifeArea.DrawDistance))
       (mapP (ignoreThenP (optP (justP "the ".data)) (justP "region".data))
         (fun _ => SecondLifeArea.Region)))

/-- avatar_entered_area_message_parser. -/
def avatar_entered_area_message_p : Prs SecondLifeAvatarMessage :=
  bindP (ignoreThenP (justP "entered ".data) area_of_significance_p) (fun area =>
  bindP (optP (thenIgnoreP (ignoreThenP (justP " (".data) distance_p) (justP ")".data)))
    (fun dist =>
  ignoreThenP (justP ".".data)
    (pureP (SecondLifeAvatarMessage.EnteredArea area dist))))

/-- avatar_left_area_message_parser. -/
def avatar_left_area_message_p : Prs SecondLifeAvatarMessage :=
  bindP (ignoreThenP (justP "left ".data) area_of_significance_p) (fun area =>
  ignoreThenP (justP ".".data) (pureP (SecondLifeAvatarMessage.LeftArea area)))

/-- avatar_message_parser: came-online, went-offline, entered-area,
    left-area, emote, chat, in the source's or-nesting. -/
def avatar_message_p : Prs SecondLifeAvatarMessage :=
  orP avatar_came_online_message_p
  (orP avatar_went_offline_message_p
  (orP avatar_entered_area_message_p
  (orP avatar_left_area_message_p
  (orP avatar_emote_message_p avatar_chat_message_p))))

/-- avatar_name_parser: everything before the first ':'. -/
def avatar_name_p : Prs String :=
  mapP (manyPredP (fun c => !(c = ':'))) String.mk

/-- The "Second Life: " system-message branch of chat_log_event_parser. -/
def system_line_branch : Prs SecondLifeChatLogEvent :=
  ignoreThenP (justP "Second Life: ".data)
    (mapP system_message_p (fun m => SecondLifeChatLogEvent.SystemMessage m))

/-- The avatar-line branch of chat_log_event_parser: a name, a ':',
    whitespace, then an avatar message. -/
def avatar_line_branch : Prs SecondLifeChatLogEvent :=
  bindP (thenIgnoreP avatar_name_p (andThenP (justP ":".data) whitespaceP)) (fun name =>
  mapP avatar_message_p (fun m => SecondLifeChatLogEvent.AvatarLine name m))

/-- The catch-all branch of chat_log_event_parser: the raw text. -/
def other_line_branch : Prs SecondLifeChatLogEvent :=
  mapP anyAllP (fun s => SecondLifeChatLogEvent.OtherMessage (String.mk s))

/-- chat_log_event_parser: system branch, avatar branch, catch-all, in the
    source's left-nested or-chain A.or(B).or(C). -/
def chat_log_event_p : Prs SecondLifeChatLogEvent :=
  orP (orP system_line_branch avatar_line_branch) other_line_branch

/-- The literal unresolved-template timestamp written by buggy log lines. -/
def template_literal : List Char :=
  "[[year,datetime,slt]/[mthnum,datetime,slt]/[day,datetime,slt] [hour,datetime,slt]:[min,datetime,slt]]".data

/-- The concrete bracketed timestamp of sl_chat_log_line_parser:
    [YYYY/MM/DD HH:MM] or [YYYY/MM/DD HH:MM:SS], validated through the time
    crate (the source's try_map; a failed validation fails this alternative). -/
def concrete_timestamp_p : Prs ChatTimestamp :=
  bindP (ignoreThenP (justP "[".data) (exactlyP Char.isDigit 4)) (fun ys =>
  bindP (ignoreThenP (justP "/".data) (exactlyP Char.isDigit 2)) (fun ms =>
  bindP (ignoreThenP (justP "/".data) (exactlyP Char.isDigit 2)) (fun ds =>
  bindP (ignoreThenP (justP " ".data) (exactlyP Char.isDigit 2)) (fun hs =>
  bindP (ignoreThenP (justP ":".data) (exactlyP Char.isDigit 2)) (fun mis =>
  bindP (optP (ignoreThenP (justP ":".data) (exactlyP Char.isDigit 2))) (fun ss =>
  ignoreThenP (justP "]".data)
    (fun rest =>
      match mkChatTimestamp (natOfDigits ys) (natOfDigits ms) (natOfDigits ds)
              (natOfDigits hs) (natOfDigits mis) (natOfDigits (ss.getD "00".data)) with
      | some t => some (t, rest)
      | none => none)))))))

/-- sl_chat_log_line_parser: a concrete timestamp or the template literal,
    whitespace, then the chat log event. -/
def sl_chat_log_line_p : Prs SecondLifeChatLogLine :=
  bindP (thenIgnoreP
          (orP (mapP concrete_timestamp_p (fun t => some t))
               (mapP (justP template_literal) (fun _ => (none : Option ChatTimestamp))))
          whitespaceP) (fun ts =>
  mapP chat_log_event_p (fun ev => { timestamp := ts, event := ev }))

/- ===================== Welcome greeting parser ===================== -/

/-- The greeting tokens of welcome_greeting_parser, in the source's or-order. -/
def greetWords : List (List Char) :=
  ["hi".data, "hello".data, "hallo".data, "ahoy".data, "wb".data, "welcome back".data]

/-- Try literal words in order; on the first match return the rest of the
    input after it. -/
def tryWords : List (List Char) → List Char → Option (List Char)
  | [], _ => none
  | w :: ws, s => if litPre w s then some (s.drop w.length) else tryWords ws s

/-- The name-list separator of welcome_greeting_parser: ",", "and", "und"
    or a newline, tried in the source's order; returns the input after the
    consumed separator. -/
def greetSepHit (s : List Char) : Option (List Char) :=
  if litPre ",".data s then some (s.drop 1)
  else if litPre "and".data s then some (s.drop 3)
  else if litPre "und".data s then some (s.drop 3)
  else if litPre "\n".data s then some (s.drop 1)
  else none

/-- The rewound stop condition of the take_until in welcome_greeting_parser:
    a separator is ahead, or the input ended (the end() alternative). -/
def greetStop (s : List Char) : Bool :=
  litPre ",".data s || litPre "and".data s || litPre "und".data s ||
    litPre "\n".data s || s.isEmpty

/-- take_until(separator.rewind()): consume characters up to, but not
    including, the next separator or the end of input. -/
def takeToStop : List Char → List Char × List Char
  | [] => ([], [])
  | c :: rest =>
    if greetStop (c :: rest) then ([], c :: rest)
    else
      let pr := takeToStop rest
      (c :: pr.fst, pr.snd)

/-- The separated_by loop of welcome_greeting_parser.  Each iteration
    consumes a separator of at least one character, so fuel equal to the
    input length is always enough; the loop ends exactly at end of input
    because the stop condition includes every separator and end(). -/
def greetItemsGo : Nat → List Char → List (List Char)
  | 0, s => [(takeToStop s).fst]
  | fuel + 1, s =>
    let pr := takeToStop s
    match greetSepHit pr.snd with
    | none => [pr.fst]
    | some s2 => pr.fst :: greetItemsGo fuel s2

/-- Remove leading and trailing whitespace (str::trim). -/
def trimWs (l : List Char) : List Char :=
  ((l.dropWhile Char.isWhitespace).reverse.dropWhile Char.isWhitespace).reverse

/-- welcome_greeting_parser().parse(s): a greeting word, whitespace, then a
    separator-delimited list of names, each trimmed.  The take_until stop
    condition covers every separator and end of input, so the items loop
    always ends with the input fully consumed and Parser::parse succeeds
    whenever the leading greeting word matches. -/
def welcome_greeting_p (s : List Char) : Option (List String) :=
  match tryWords greetWords s with
  | none => none
  | some r1 =>
    let r2 := r1.dropWhile Char.isWhitespace
    some ((greetItemsGo (r2.length + 1) r2).map (fun cs => String.mk (trimWs cs)))

/- ===================== Presence state machine (do_stuff's consumer loop) ===================== -/

/-- Lowercase a string (str::to_lowercase; ASCII-faithful per-char map). -/
def lowerStr (s : String) : String := String.mk (s.data.map Char.toLower)

/-- An outbound decision of the state machine.  notify models a successful
    notification show for a name (raw, as displayed), closeNotify models
    closing the handle stored under a lower-cased key.  persist is the
    external-store write decision the specification describes; it is part of
    the decision vocabulary so claims about it can be stated, and the source
    never issues it (there is no persistence store in the source). -/
inductive Decision
  | notify (name : String)
  | closeNotify (name : String)
  | persist (name : String) (timestamp : Int)
  deriving DecidableEq

/-- In-memory state of do_stuff's loop: the keys of the notify_handles
    BTreeMap (handles themselves are opaque) and the last_seen_in_chat_range
    BTreeMap as an association list with unique keys.  Timestamps are
    modelled as integer seconds: parsed log timestamps are whole seconds, so
    PrimitiveDateTime subtraction and the 5-second comparison agree with
    integer arithmetic. -/
structure AppState where
  notifyHandles : List String
  lastSeen : List (String × Int)
  deriving DecidableEq

/-- The machine-level view of a parsed line: its optional timestamp in
    seconds and its event. -/
structure MachineLine where
  timestamp : Option Int
  event : SecondLifeChatLogEvent
  deriving DecidableEq

/-- BTreeMap::get on the last_seen map. -/
def lookupLS : List (String × Int) → String → Option Int
  | [], _ => none
  | (k, v) :: rest, key => if k = key then some v else lookupLS rest key

/-- BTreeMap::insert on the last_seen map: replace the entry for the key if
    present, otherwise add one. -/
def insertLS : List (String × Int) → String → Int → List (String × Int)
  | [], key, v => [(key, v)]
  | (k, v0) :: rest, key, v =>
    if k = key then (key, v) :: rest else (k, v0) :: insertLS rest key v

/-- BTreeMap::insert on the notify_handles map, keys only (a fresh handle
    replaces any previous one under the same key). -/
def insertKey : List String → String → List String
  | [], key => [key]
  | k :: rest, key => if k = key then k :: rest else k :: insertKey rest key

/-- Key membership in the notify_handles map. -/
def containsKey : List String → String → Bool
  | [], _ => false
  | k :: rest, key => k = key || containsKey rest key

/-- BTreeMap::remove of one key from the notify_handles map. -/
def removeKey (hs : List String) (key : String) : List String :=
  hs.filter (fun k => !(k = key))

/-- str::contains(needle): the needle occurs contiguously in the haystack. -/
def containsSeq (needle : List Char) : List Char → Bool
  | [] => litPre needle []
  | c :: rest => litPre needle (c :: rest) || containsSeq needle rest

/-- Closing the notifications for one greeted name: every handle whose
    (lower-cased) key contains the lower-cased greeted name as a substring
    is removed and closed (do_stuff's inner to_remove loop). -/
def closeOne (st : AppState) (greeted : String) : AppState × List Decision :=
  let g := lowerStr greeted
  let removed := st.notifyHandles.filter (fun n => containsSeq g.data n.data)
  ({ st with notifyHandles := st.notifyHandles.filter (fun n => !containsSeq g.data n.data) },
   removed.map Decision.closeNotify)

/-- Fold closeOne over all greeted names, in order. -/
def closeGreeted : AppState → List String → AppState × List Decision
  | st, [] => (st, [])
  | st, g :: gs =>
    let pr := closeOne st g
    let pr2 := closeGreeted pr.fst gs
    (pr2.fst, pr.snd ++ pr2.snd)

/-- do_stuff's EnteredArea(ChatRange) block: compute the last-seen age (known
    only when a record exists and the line is timestamped), notify unless
    the age is known and within the 5-second grace window, record the handle
    under the lower-cased name, and update last_seen only when timestamped. -/
def enteredChatRange (st : AppState) (name : String) (ts : Option Int) :
    AppState × List Decision :=
  let prev := lookupLS st.lastSeen (lowerStr name)
  let lastSeenAge : Option Int :=
    match prev, ts with
    | some p, some t => some (t - p)
    | _, _ => none
  let doNotify : Bool :=
    lastSeenAge.isNone ||
      (match lastSeenAge with
       | some a => decide (5 < a)
       | none => false)
  let handles := if doNotify then insertKey st.notifyHandles (lowerStr name) else st.notifyHandles
  let effs : List Decision := if doNotify then [Decision.notify name] else []
  let ls :=
    match ts with
    | some t => insertLS st.lastSeen (lowerStr name) t
    | none => st.lastSeen
  ({ notifyHandles := handles, lastSeen := ls }, effs)

/-- do_stuff's LeftArea(ChatRange) block: update last_seen when timestamped,
    then close and remove the handle stored under the lower-cased name (the
    source collects the keys equal to the name; BTreeMap keys are unique, so
    at most one is removed). -/
def leftChatRange (st : AppState) (name : String) (ts : Option Int) :
    AppState × List Decision :=
  let ls :=
    match ts with
    | some t => insertLS st.lastSeen (lowerStr name) t
    | none => st.lastSeen
  let key := lowerStr name
  if containsKey st.notifyHandles key then
    ({ notifyHandles := removeKey st.notifyHandles key, lastSeen := ls },
     [Decision.closeNotify key])
  else
    ({ notifyHandles := st.notifyHandles, lastSeen := ls }, [])

/-- do_stuff's Chat block: the local avatar's own chat is scanned for a
    welcome greeting whose names close matching notifications; chat from
    anyone else updates last_seen only when timestamped and at most
    Say-volume. -/
def chatLine (localName : String) (st : AppState) (name : String)
    (vol : SecondLifeChatVolume) (msg : String) (ts : Option Int) :
    AppState × List Decision :=
  if name = localName then
    match welcome_greeting_p (lowerStr msg).data with
    | some greeted => closeGreeted st greeted
    | none => (st, [])
  else
    match ts with
    | some t =>
      if volLe vol SecondLifeChatVolume.Say then
        ({ st with lastSeen := insertLS st.lastSeen (lowerStr name) t }, [])
      else (st, [])
    | none => (st, [])

/-- One iteration of do_stuff's consumer loop on a successfully parsed line.
    The source's four sequential if-let blocks match disjoint event shapes,
    so they amount to this single match; events matched by no block leave
    the state unchanged. -/
def stepLine (localName : String) (st : AppState) (l : MachineLine) :
    AppState × List Decision :=
  match l.event with
  | SecondLifeChatLogEvent.AvatarLine name
      (SecondLifeAvatarMessage.EnteredArea SecondLifeArea.ChatRange _) =>
    enteredChatRange st name l.timestamp
  | SecondLifeChatLogEvent.AvatarLine name
      (SecondLifeAvatarMessage.LeftArea SecondLifeArea.ChatRange) =>
    leftChatRange st name l.timestamp
  | SecondLifeChatLogEvent.AvatarLine name (SecondLifeAvatarMessage.Chat vol msg) =>
    chatLine localName st name vol msg l.timestamp
  | SecondLifeChatLogEvent.AvatarLine name (SecondLifeAvatarMessage.Emote vol _) =>
    (match l.timestamp with
     | some t =>
       if volLe vol SecondLifeChatVolume.Say then
         ({ st with lastSeen := insertLS st.lastSeen (lowerStr name) t }, [])
       else (st, [])
     | none => (st, []))
  | _ => (st, [])

/-- True when the decision list contains a persist decision. -/
def hasPersist : List Decision → Bool
  | [] => false
  | Decision.persist _ _ :: _ => true
  | _ :: rest => hasPersist rest

/- ===================== Line reassembler (do_stuff's middle task) ===================== -/

/-- An input event of the reassembly task: a raw physical line arriving, or
    the 1ms quiet-period timeout elapsing with no line. -/
inductive RawEvent
  | line (content : List Char)
  | timeout
  deriving DecidableEq

/-- The source's continuation test: line.line().starts_with(' ') (the space
    character specifically) or the line is empty. -/
def isContinuation : List Char → Bool
  | [] => true
  | c :: _ => c = ' '

/-- One step of the reassembly loop: returns the new buffer and the logical
    entries emitted by this event (source lines 1200-1222). -/
def reasmStep (buf : Option (List Char)) : RawEvent → Option (List Char) × List (List Char)
  | RawEvent.timeout =>
    (match buf with
     | some b => (none, [b])
     | none => (none, []))
  | RawEvent.line l =>
    (match buf with
     | some b =>
       if isContinuation l then (some (b ++ '\n' :: l), [])
       else (some l, [b])
     | none => (some l, []))

/-- Run the reassembly loop over a finite event sequence.  When the input
    stream ends (the channel closes) the source's loop hits its catch-all
    arm and breaks without flushing, so a still-buffered entry is dropped
    (source lines 1223-1225). -/
def reassembleGo (buf : Option (List Char)) : List RawEvent → List (List Char)
  | [] => []
  | e :: rest =>
    let pr := reasmStep buf e
    pr.snd ++ reassembleGo pr.fst rest

/-- Reassemble a full event sequence starting with no buffer. -/
def reassemble (evs : List RawEvent) : List (List Char) := reassembleGo none evs

/- ===================== Helper lemmas ===================== -/

/-- If a bind succeeds, its first parser succeeded. -/
theorem bindP_some_src {α β : Type} {p : Prs α} {f : α → Prs β} {s : List Char}
    {r : β × List Char} (h : bindP p f s = some r) :
    ∃ a rest, p s = some (a, rest) := by
  unfold bindP at h
  cases hp : p s with
  | none => rw [hp] at h; exact absurd h (by simp)
  | some ar => obtain ⟨a, rest⟩ := ar; exact ⟨a, rest, hp ▸ rfl⟩

/-- If a literal parser succeeds, the literal was at the front of the input. -/
theorem justP_some_litPre {lit s : List Char} {r : List Char × List Char}
    (h : justP lit s = some r) : litPre lit s = true := by
  unfold justP at h
  by_cases hp : litPre lit s
  · exact hp
  · rw [if_neg hp] at h; exact absurd h (by simp)

/-- A successful literal-prefix test pins down the first input character. -/
theorem litPre_head {lit s : List Char} {c : Char} (hl : lit.head? = some c)
    (h : litPre lit s = true) : s.head? = some c := by
  cases lit with
  | nil => cases hl
  | cons a as =>
    cases s with
    | nil => simp [litPre] at h
    | cons b bs =>
      simp [litPre] at h
      simp at hl
      rw [List.head?_cons, ← h.1, hl]

/-- teleport_completed_message_p only matches input starting with 'T'. -/
theorem tp_headed : ∀ s r, teleport_completed_message_p s = some r → s.head? = some 'T' := by
  intro s r h
  unfold teleport_completed_message_p mapP ignoreThenP at h
  obtain ⟨a, r1, h1⟩ := bindP_some_src h
  obtain ⟨b, r2, h2⟩ := bindP_some_src h1
  exact litPre_head (by decide) (justP_some_litPre h2)

/-- now_playing_message_p only matches input starting with 'N'. -/
theorem np_headed : ∀ s r, now_playing_message_p s = some r → s.head? = some 'N' := by
  intro s r h
  unfold now_playing_message_p mapP ignoreThenP at h
  obtain ⟨a, r1, h1⟩ := bindP_some_src h
  obtain ⟨b, r2, h2⟩ := bindP_some_src h1
  exact litPre_head (by decide) (justP_some_litPre h2)

/-- items_successfully_shared_message_p only matches input starting with 'I'. -/
theorem is_headed : ∀ s r, items_successfully_shared_message_p s = some r →
    s.head? = some 'I' := by
  intro s r h
  unfold items_successfully_shared_message_p mapP at h
  obtain ⟨a, r1, h1⟩ := bindP_some_src h
  exact litPre_head (by decide) (justP_some_litPre h1)

/-- modified_search_query_message_p only matches input starting with 'Y'. -/
theorem ms_headed : ∀ s r, modified_search_query_message_p s = some r →
    s.head? = some 'Y' := by
  intro s r h
  unfold modified_search_query_message_p mapP ignoreThenP at h
  obtain ⟨a, r1, h1⟩ := bindP_some_src h
  obtain ⟨b, r2, h2⟩ := bindP_some_src h1
  exact litPre_head (by decide) (justP_some_litPre h2)

/-- avatar_gave_object_message_p only matches input starting with 'A'. -/
theorem ag_headed : ∀ s r, avatar_gave_object_message_p s = some r →
    s.head? = some 'A' := by
  intro s r h
  unfold avatar_gave_object_message_p ignoreThenP at h
  obtain ⟨a, r1, h1⟩ := bindP_some_src h
  obtain ⟨b, r2, h2⟩ := bindP_some_src h1
  exact litPre_head (by decide) (justP_some_litPre h2)

/-- Parsers anchored at distinct first characters never both succeed. -/
theorem excl_of_heads {α : Type} {p q : Prs α} {c d : Char}
    (hp : ∀ s r, p s = some r → s.head? = some c)
    (hq : ∀ s r, q s = some r → s.head? = some d)
    (hne : c ≠ d) : ∀ s, p s = none ∨ q s = none := by
  intro s
  cases h1 : p s with
  | none => exact Or.inl rfl
  | some r1 =>
    cases h2 : q s with
    | none => exact Or.inr rfl
    | some r2 =>
      have e1 := hp s r1 h1
      have e2 := hq s r2 h2
      rw [e1] at e2
      exact absurd (Option.some.inj e2) hne

/-- Teleport-completed and now-playing rules are mutually exclusive. -/
theorem excl_tp_np : ∀ s, teleport_completed_message_p s = none ∨
    now_playing_message_p s = none :=
  excl_of_heads tp_headed np_headed (by decide)

/-- Modified-search-query and avatar-gave-object rules are mutually exclusive. -/
theorem excl_ms_ag : ∀ s, modified_search_query_message_p s = none ∨
    avatar_gave_object_message_p s = none :=
  excl_of_heads ms_headed ag_headed (by decide)

/-- Items-shared and avatar-gave-object rules are mutually exclusive. -/
theorem excl_is_ag : ∀ s, items_successfully_shared_message_p s = none ∨
    avatar_gave_object_message_p s = none :=
  excl_of_heads is_headed ag_headed (by decide)

/-- Pointwise congruence of ordered choice in its second argument. -/
theorem orP_congr {α : Type} (p : Prs α) {x y : Prs α} {s : List Char}
    (h : x s = y s) : orP p x s = orP p y s := by
  unfold orP
  cases hp : p s <;> simp [h]

/-- Two adjacent alternatives that never both succeed may be swapped. -/
theorem orP_swap {α : Type} (p q r : Prs α)
    (hd : ∀ s, p s = none ∨ q s = none) (s : List Char) :
    orP p (orP q r) s = orP q (orP p r) s := by
  unfold orP
  cases hp : p s with
  | none => cases hq : q s <;> simp
  | some a =>
    cases hq : q s with
    | none => simp
    | some b =>
      cases hd s with
      | inl h => rw [h] at hp; cases hp
      | inr h => rw [h] at hq; cases hq

/-- Looking up a key straight after inserting it yields the inserted value. -/
theorem lookupLS_insertLS (m : List (String × Int)) (k : String) (v : Int) :
    lookupLS (insertLS m k v) k = some v := by
  induction m with
  | nil => simp [insertLS, lookupLS]
  | cons kv rest ih =>
    obtain ⟨k0, v0⟩ := kv
    by_cases h : k0 = k
    · simp [insertLS, h, lookupLS]
    · simp [insertLS, h, lookupLS, ih]

/-- Closing greeted notifications only touches the handle map. -/
theorem closeGreeted_lastSeen (gs : List String) (st : AppState) :
    (closeGreeted st gs).fst.lastSeen = st.lastSeen := by
  induction gs generalizing st with
  | nil => rfl
  | cons g gs ih => simp [closeGreeted, closeOne, ih]

/-- Stripping a literal from its own extension returns the extension. -/
theorem stripPre_append (l m : List Char) : stripPre l (l ++ m) = some m := by
  induction l with
  | nil => rfl
  | cons c cs ih => simp [stripPre, ih]

/-- A failed literal-prefix test makes the strip fail. -/
theorem stripPre_eq_none (l s : List Char) (h : litPre l s = false) :
    stripPre l s = none := by
  induction l generalizing s with
  | nil => simp [litPre] at h
  | cons c cs ih =>
    cases s with
    | nil => rfl
    | cons b bs =>
      simp [litPre] at h
      by_cases hc : c = b
      · simp [stripPre, hc, ih bs (h hc)]
      · simp [stripPre, hc]

/-- The tail of the two system-message chains from the items-shared rule on:
    hoisting avatar-gave-object above items-shared and modified-search-query
    does not change the result, because those rules are mutually exclusive. -/
theorem sys_suffix_eq (s : List Char) :
    orP items_successfully_shared_message_p
      (orP modified_search_query_message_p
        (orP avatar_gave_object_message_p
          (orP simulator_version_message_p
            (orP renamed_avatar_message_p other_system_message_p)))) s
    = orP avatar_gave_object_message_p
      (orP items_successfully_shared_message_p
        (orP modified_search_query_message_p
          (orP simulator_version_message_p
            (orP renamed_avatar_message_p other_system_message_p)))) s := by
  have h2 := orP_swap modified_search_query_message_p avatar_gave_object_message_p
    (orP simulator_version_message_p (orP renamed_avatar_message_p other_system_message_p))
    excl_ms_ag s
  calc orP items_successfully_shared_message_p
        (orP modified_search_query_message_p
          (orP avatar_gave_object_message_p
            (orP simulator_version_message_p
              (orP renamed_avatar_message_p other_system_message_p)))) s
      = orP items_successfully_shared_message_p
          (orP avatar_gave_object_message_p
            (orP modified_search_query_message_p
              (orP simulator_version_message_p
                (orP renamed_avatar_message_p other_system_message_p)))) s :=
        orP_congr _ h2
    _ = orP avatar_gave_object_message_p
          (orP items_successfully_shared_message_p
            (orP modified_search_query_message_p
              (orP simulator_version_message_p
                (orP renamed_avatar_message_p other_system_message_p)))) s :=
        orP_swap _ _ _ excl_is_ag s

/- ===================== Claim theorems ===================== -/

/-- C1, counterexample: the claim says the top-level parse of every input
    string succeeds (OtherMessage at worst), but the line parser demands a
    timestamp bracket first, so the plain string "hello" is a hard failure. -/
theorem c1_counterexample : runParse sl_chat_log_line_p "hello".data = none := by decide

/-- C1, amended: the fallback-completeness guarantee holds at the body
    level: chat_log_event_parser succeeds on every input, and whenever the
    system-message and avatar-line branches fail it falls back to the
    catch-all OtherMessage holding the whole body. -/
theorem c1_theorem : ∀ s : List Char,
    (chat_log_event_p s).isSome = true ∧
      (system_line_branch s = none → avatar_line_branch s = none →
        chat_log_event_p s = some (SecondLifeChatLogEvent.OtherMessage (String.mk s), [])) := by
  intro s
  have hC : other_line_branch s =
      some (SecondLifeChatLogEvent.OtherMessage (String.mk s), []) := rfl
  constructor
  · unfold chat_log_event_p orP
    cases h1 : system_line_branch s <;> cases h2 : avatar_line_branch s <;>
      simp [h1, h2, hC]
  · intro h1 h2
    unfold chat_log_event_p orP
    simp [h1, h2, hC]

/-- C1, witness for the amended theorem at a concrete body with no colon. -/
theorem c1_witness :
    (chat_log_event_p "just text".data).isSome = true ∧
      chat_log_event_p "just text".data =
        some (SecondLifeChatLogEvent.OtherMessage "just text", []) :=
  ⟨(c1_theorem ("just text".data)).1, (c1_theorem ("just text".data)).2 (by decide) (by decide)⟩

/-- C2: a parsed line without a timestamp never changes the last_seen map,
    whatever the event (in particular for EnteredArea, LeftArea, Chat and
    Emote events). -/
theorem c2_theorem (localName : String) (st : AppState) (ev : SecondLifeChatLogEvent) :
    ((stepLine localName st { timestamp := none, event := ev }).fst).lastSeen
      = st.lastSeen := by
  cases ev with
  | AvatarLine name m =>
    cases m with
    | Chat vol msg =>
      unfold stepLine chatLine
      by_cases h : name = localName
      · cases hw : welcome_greeting_p (lowerStr msg).data with
        | none => simp [h, hw]
        | some gs => simp [h, hw, closeGreeted_lastSeen]
      · simp [h]
    | Emote vol msg => rfl
    | CameOnline => rfl
    | WentOffline => rfl
    | EnteredArea a d => cases a <;> simp [stepLine, enteredChatRange]
    | LeftArea a =>
      cases a with
      | ChatRange =>
        unfold stepLine leftChatRange
        by_cases h : containsKey st.notifyHandles (lowerStr name) <;> simp [h]
      | DrawDistance => rfl
      | Region => rfl
  | SystemMessage m => rfl
  | OtherMessage m => rfl

/-- C3: with a recorded last_seen and a timestamped EnteredArea(ChatRange)
    event, a notify decision is issued exactly when the timestamp minus the
    previous last_seen exceeds the 5-second grace window. -/
theorem c3_theorem (st : AppState) (localName name : String)
    (dist : Option SecondLifeDistance) (prev t : Int)
    (h : lookupLS st.lastSeen (lowerStr name) = some prev) :
    (stepLine localName st
        { timestamp := some t,
          event := SecondLifeChatLogEvent.AvatarLine name
            (SecondLifeAvatarMessage.EnteredArea SecondLifeArea.ChatRange dist) }).snd
      = [Decision.notify name] ↔ 5 < t - prev := by
  by_cases hc : 5 < t - prev
  · simp [stepLine, enteredChatRange, h, hc]
  · simp [stepLine, enteredChatRange, h, hc]

/-- C3, witness: with last_seen recorded at 0, a second entry at 10 seconds
    notifies again and a second entry at 3 seconds does not. -/
theorem c3_witness :
    (stepLine "me" { notifyHandles := ["ann"], lastSeen := [("ann", 0)] }
      { timestamp := some 10,
        event := SecondLifeChatLogEvent.AvatarLine "ann"
          (SecondLifeAvatarMessage.EnteredArea SecondLifeArea.ChatRange none) }).snd
        = [Decision.notify "ann"] ∧
    ¬ ((stepLine "me" { notifyHandles := ["ann"], lastSeen := [("ann", 0)] }
      { timestamp := some 3,
        event := SecondLifeChatLogEvent.AvatarLine "ann"
          (SecondLifeAvatarMessage.EnteredArea SecondLifeArea.ChatRange none) }).snd
        = [Decision.notify "ann"]) := by
  constructor
  · exact (c3_theorem { notifyHandles := ["ann"], lastSeen := [("ann", 0)] }
      "me" "ann" none 0 10 (by decide)).mpr (by decide)
  · intro hcon
    exact absurd ((c3_theorem { notifyHandles := ["ann"], lastSeen := [("ann", 0)] }
      "me" "ann" none 0 3 (by decide)).mp hcon) (by decide)

/-- C4: the system-message sub-grammar is extensionally the ordered
    alternation in the spec's listed priority order with the catch-all last:
    for every input the first spec-listed rule that matches determines the
    result.  (The source nests teleport-completed before now-playing and
    avatar-gave-object after items-shared and modified-search-query, but
    those rules are mutually exclusive, so the chains agree everywhere.) -/
theorem c4_theorem : ∀ s, system_message_p s = system_message_spec_order_p s := by
  intro s
  unfold system_message_p system_message_spec_order_p
  apply orP_congr
  apply orP_congr
  apply orP_congr
  apply orP_congr
  refine (orP_swap _ _ _ excl_tp_np s).trans ?_
  apply orP_congr
  apply orP_congr
  apply orP_congr
  apply orP_congr
  exact sys_suffix_eq s

/-- C5, counterexample: a timestamped EnteredArea(ChatRange) presence update
    issues only a notify decision; no persist decision is ever issued, and
    the last_seen map starts empty rather than being seeded from a store
    (the source has no external key-value store at all). -/
theorem c5_counterexample :
    (stepLine "me" { notifyHandles := [], lastSeen := [] }
      { timestamp := some 100,
        event := SecondLifeChatLogEvent.AvatarLine "John"
          (SecondLifeAvatarMessage.EnteredArea SecondLifeArea.ChatRange none) }).snd
      = [Decision.notify "John"] ∧
    hasPersist (stepLine "me" { notifyHandles := [], lastSeen := [] }
      { timestamp := some 100,
        event := SecondLifeChatLogEvent.AvatarLine "John"
          (SecondLifeAvatarMessage.EnteredArea SecondLifeArea.ChatRange none) }).snd
      = false := by decide

/-- C5, amended: every timestamped presence update -- EnteredArea(ChatRange)
    or LeftArea(ChatRange) for any actor, a chat from another actor at
    volume at most Say, or an emote from any actor at volume at most Say --
    records (lower-cased name, timestamp) in the in-memory last_seen map.
    Only the chat conjunct carries the other-actor condition, matching the
    source: the EnteredArea, LeftArea and Emote blocks have no own-name
    check. -/
theorem c5_theorem (st : AppState) (localName name msg : String) (t : Int)
    (vol : SecondLifeChatVolume) (dist : Option SecondLifeDistance)
    (hvol : volLe vol SecondLifeChatVolume.Say = true) :
    lookupLS ((stepLine localName st
        { timestamp := some t,
          event := SecondLifeChatLogEvent.AvatarLine name
            (SecondLifeAvatarMessage.EnteredArea SecondLifeArea.ChatRange dist) }).fst.lastSeen)
      (lowerStr name) = some t ∧
    lookupLS ((stepLine localName st
        { timestamp := some t,
          event := SecondLifeChatLogEvent.AvatarLine name
            (SecondLifeAvatarMessage.LeftArea SecondLifeArea.ChatRange) }).fst.lastSeen)
      (lowerStr name) = some t ∧
    (name ≠ localName →
      lookupLS ((stepLine localName st
          { timestamp := some t,
            event := SecondLifeChatLogEvent.AvatarLine name
              (SecondLifeAvatarMessage.Chat vol msg) }).fst.lastSeen)
        (lowerStr name) = some t) ∧
    lookupLS ((stepLine localName st
        { timestamp := some t,
          event := SecondLifeChatLogEvent.AvatarLine name
            (SecondLifeAvatarMessage.Emote vol msg) }).fst.lastSeen)
      (lowerStr name) = some t := by
  refine ⟨?_, ?_, ?_, ?_⟩
  · simp [stepLine, enteredChatRange, lookupLS_insertLS]
  · unfold stepLine leftChatRange
    by_cases h : containsKey st.notifyHandles (lowerStr name) <;>
      simp [h, lookupLS_insertLS]
  · intro hname
    simp [stepLine, chatLine, hname, hvol, lookupLS_insertLS]
  · simp [stepLine, hvol, lookupLS_insertLS]

/-- C5, witness for the amended theorem at concrete inputs, with the emote
    conjunct exercised at the local avatar's own name. -/
theorem c5_witness :
    lookupLS ((stepLine "me" { notifyHandles := [], lastSeen := [] }
        { timestamp := some 42,
          event := SecondLifeChatLogEvent.AvatarLine "Bob"
            (SecondLifeAvatarMessage.EnteredArea SecondLifeArea.ChatRange none) }).fst.lastSeen)
      (lowerStr "Bob") = some 42 ∧
    lookupLS ((stepLine "me" { notifyHandles := [], lastSeen := [] }
        { timestamp := some 42,
          event := SecondLifeChatLogEvent.AvatarLine "Bob"
            (SecondLifeAvatarMessage.LeftArea SecondLifeArea.ChatRange) }).fst.lastSeen)
      (lowerStr "Bob") = some 42 ∧
    lookupLS ((stepLine "me" { notifyHandles := [], lastSeen := [] }
        { timestamp := some 42,
          event := SecondLifeChatLogEvent.AvatarLine "Bob"
            (SecondLifeAvatarMessage.Chat SecondLifeChatVolume.Whisper "hey") }).fst.lastSeen)
      (lowerStr "Bob") = some 42 ∧
    lookupLS ((stepLine "me" { notifyHandles := [], lastSeen := [] }
        { timestamp := some 42,
          event := SecondLifeChatLogEvent.AvatarLine "me"
            (SecondLifeAvatarMessage.Emote SecondLifeChatVolume.Whisper "hey") }).fst.lastSeen)
      (lowerStr "me") = some 42 := by
  have hb := c5_theorem { notifyHandles := [], lastSeen := [] } "me" "Bob" "hey" 42
    SecondLifeChatVolume.Whisper none (by decide)
  have hm := c5_theorem { notifyHandles := [], lastSeen := [] } "me" "me" "hey" 42
    SecondLifeChatVolume.Whisper none (by decide)
  exact ⟨hb.1, hb.2.1, hb.2.2.1 (by decide), hm.2.2.2⟩

/-- C6, counterexample: with raw lines A, a continuation, and B, and the
    stream ending with no timeout, only one logical entry is emitted -- the
    in-progress buffer holding B is dropped at stream end, not flushed. -/
theorem c6_counterexample :
    reassemble [RawEvent.line "A".data, RawEvent.line " continuation".data,
      RawEvent.line "B".data] = ["A\n continuation".data] := by decide

/-- C6, amended: the reassembler emits A-newline-continuation when B
    arrives and emits B only after a quiet-period timeout; when the stream
    ends with the buffer still in progress the buffer is dropped. -/
theorem c6_theorem :
    reassemble [RawEvent.line "A".data, RawEvent.line " continuation".data,
        RawEvent.line "B".data, RawEvent.timeout]
      = ["A\n continuation".data, "B".data] ∧
    reassemble [RawEvent.line "A".data, RawEvent.line " continuation".data,
        RawEvent.line "B".data]
      = ["A\n continuation".data] := by decide

/-- C7, counterexample: a raw line beginning with a tab begins with a
    whitespace character, yet with a buffer in progress the source emits the
    buffer and starts a new one instead of appending -- the continuation
    test is starts_with(' '), not "any whitespace". -/
theorem c7_counterexample :
    Char.isWhitespace '\t' = true ∧
    reasmStep (some "A".data) (RawEvent.line ('\t' :: "B".data))
      = (some ('\t' :: "B".data), ["A".data]) ∧
    ¬ (reasmStep (some "A".data) (RawEvent.line ('\t' :: "B".data))
        = (some ("A".data ++ '\n' :: '\t' :: "B".data), [])) := by decide

/-- C7, amended: for every raw line that begins with a space character or is
    empty, when a buffer exists the reassembler appends the line to the
    buffer (newline-joined) instead of emitting the buffer. -/
theorem c7_theorem (b l : List Char) (h : l = [] ∨ l.head? = some ' ') :
    reasmStep (some b) (RawEvent.line l) = (some (b ++ '\n' :: l), []) := by
  have hc : isContinuation l = true := by
    cases l with
    | nil => rfl
    | cons c rest =>
      cases h with
      | inl h0 => cases h0
      | inr h1 =>
        simp at h1
        simp [isContinuation, h1]
  simp [reasmStep, hc]

/-- C7, witness for the amended theorem at a concrete continuation line. -/
theorem c7_witness :
    reasmStep (some "A".data) (RawEvent.line " x".data)
      = (some ("A".data ++ '\n' :: " x".data), []) :=
  c7_theorem "A".data " x".data (Or.inr (by decide))

/-- C8: a timestamped Chat or Emote from an actor other than the local
    avatar updates that actor's last_seen (with no decision issued) exactly
    when the volume is at most Say; Shout and RegionSay leave the state
    unchanged. -/
theorem c8_theorem (st : AppState) (localName name msg : String) (t : Int)
    (vol : SecondLifeChatVolume) (hname : name ≠ localName) :
    stepLine localName st
        { timestamp := some t,
          event := SecondLifeChatLogEvent.AvatarLine name
            (SecondLifeAvatarMessage.Chat vol msg) }
      = ((if volLe vol SecondLifeChatVolume.Say = true
          then { st with lastSeen := insertLS st.lastSeen (lowerStr name) t }
          else st), []) ∧
    stepLine localName st
        { timestamp := some t,
          event := SecondLifeChatLogEvent.AvatarLine name
            (SecondLifeAvatarMessage.Emote vol msg) }
      = ((if volLe vol SecondLifeChatVolume.Say = true
          then { st with lastSeen := insertLS st.lastSeen (lowerStr name) t }
          else st), []) := by
  constructor
  · unfold stepLine chatLine
    by_cases hv : volLe vol SecondLifeChatVolume.Say <;> simp [hname, hv]
  · unfold stepLine
    by_cases hv : volLe vol SecondLifeChatVolume.Say <;> simp [hv]

/-- C8, witness: a Say-volume chat from another actor updates last_seen and
    a Shout-volume chat or emote leaves the state unchanged. -/
theorem c8_witness :
    stepLine "me" { notifyHandles := [], lastSeen := [] }
        { timestamp := some 7,
          event := SecondLifeChatLogEvent.AvatarLine "bob"
            (SecondLifeAvatarMessage.Chat SecondLifeChatVolume.Say "x") }
      = ({ notifyHandles := [], lastSeen := [("bob", 7)] }, []) ∧
    stepLine "me" { notifyHandles := [], lastSeen := [] }
        { timestamp := some 7,
          event := SecondLifeChatLogEvent.AvatarLine "bob"
            (SecondLifeAvatarMessage.Chat SecondLifeChatVolume.Shout "x") }
      = ({ notifyHandles := [], lastSeen := [] }, []) ∧
    stepLine "me" { notifyHandles := [], lastSeen := [] }
        { timestamp := some 7,
          event := SecondLifeChatLogEvent.AvatarLine "bob"
            (SecondLifeAvatarMessage.Emote SecondLifeChatVolume.Shout "x") }
      = ({ notifyHandles := [], lastSeen := [] }, []) := by
  have hs := c8_theorem { notifyHandles := [], lastSeen := [] } "me" "bob" "x" 7
    SecondLifeChatVolume.Say (by decide)
  have hh := c8_theorem { notifyHandles := [], lastSeen := [] } "me" "bob" "x" 7
    SecondLifeChatVolume.Shout (by decide)
  exact ⟨hs.1.trans (by decide), hh.1.trans (by decide), hh.2.trans (by decide)⟩

/-- C9: volume_and_message maps a whispers-prefixed body to Whisper with the
    marker stripped, a shouts-prefixed body to Shout with the marker
    stripped, and a body with neither marker to Say with the body unchanged. -/
theorem c9_theorem (m s : List Char)
    (h1 : litPre "whispers: ".data s = false)
    (h2 : litPre "shouts: ".data s = false) :
    volume_and_message ("whispers: ".data ++ m) = (SecondLifeChatVolume.Whisper, m) ∧
    volume_and_message ("shouts: ".data ++ m) = (SecondLifeChatVolume.Shout, m) ∧
    volume_and_message s = (SecondLifeChatVolume.Say, s) := by
  refine ⟨?_, ?_, ?_⟩
  · unfold volume_and_message
    rw [stripPre_append]
  · unfold volume_and_message
    rw [show stripPre "whispers: ".data ("shouts: ".data ++ m) = none from rfl]
    rw [stripPre_append]
  · unfold volume_and_message
    rw [stripPre_eq_none _ _ h1, stripPre_eq_none _ _ h2]

/-- C9, witness at concrete message bodies. -/
theorem c9_witness :
    volume_and_message ("whispers: ".data ++ "ok".data)
      = (SecondLifeChatVolume.Whisper, "ok".data) ∧
    volume_and_message ("shouts: ".data ++ "ok".data)
      = (SecondLifeChatVolume.Shout, "ok".data) ∧
    volume_and_message "yo".data = (SecondLifeChatVolume.Say, "yo".data) :=
  c9_theorem "ok".data "yo".data (by decide) (by decide)

/-- C10: a timestamped Emote at volume at most Say updates last_seen even
    for the local avatar's own name (the Emote block has no own-name
    exclusion), whereas the local avatar's own Chat never touches last_seen. -/
theorem c10_theorem (st : AppState) (localName msg : String) (t : Int)
    (vol : SecondLifeChatVolume) (hvol : volLe vol SecondLifeChatVolume.Say = true) :
    stepLine localName st
        { timestamp := some t,
          event := SecondLifeChatLogEvent.AvatarLine localName
            (SecondLifeAvatarMessage.Emote vol msg) }
      = ({ st with lastSeen := insertLS st.lastSeen (lowerStr localName) t }, []) ∧
    ((stepLine localName st
        { timestamp := some t,
          event := SecondLifeChatLogEvent.AvatarLine localName
            (SecondLifeAvatarMessage.Chat vol msg) }).fst).lastSeen = st.lastSeen := by
  constructor
  · simp [stepLine, hvol]
  · unfold stepLine chatLine
    cases hw : welcome_greeting_p (lowerStr msg).data with
    | none => simp [hw]
    | some gs => simp [hw, closeGreeted_lastSeen]

/-- C10, witness: the local avatar's own Say-volume emote updates its own
    record, its own chat does not. -/
theorem c10_witness :
    stepLine "Me" { notifyHandles := ["bob"], lastSeen := [] }
        { timestamp := some 5,
          event := SecondLifeChatLogEvent.AvatarLine "Me"
            (SecondLifeAvatarMessage.Emote SecondLifeChatVolume.Say "waves") }
      = ({ notifyHandles := ["bob"], lastSeen := [("me", 5)] }, []) ∧
    ((stepLine "Me" { notifyHandles := ["bob"], lastSeen := [] }
        { timestamp := some 5,
          event := SecondLifeChatLogEvent.AvatarLine "Me"
            (SecondLifeAvatarMessage.Chat SecondLifeChatVolume.Say "hello bob") }).fst).lastSeen
      = [] := by
  have h := c10_theorem { notifyHandles := ["bob"], lastSeen := [] } "Me" "waves" 5
    SecondLifeChatVolume.Say (by decide)
  have h2 := c10_theorem { notifyHandles := ["bob"], lastSeen := [] } "Me" "hello bob" 5
    SecondLifeChatVolume.Say (by decide)
  exact ⟨h.1.trans (by decide), h2.2.trans (by decide)⟩
